import Mathlib

/-!
Verification development for the blender geometry-set / cryptomatte excerpt.

Part 1 embeds `source/blender/blenkernel/intern/cryptomatte.cc`, whose full
implementation is present in the repository.

Part 2 models the geometry-set data model declared in the `BKE_geometry_set.hh`
header (classes `GeometryComponent`, `GeometrySet`, `InstancesComponent`).
Only the class declarations of that header are in the repository; the member
function bodies live in a `.cc` file that is not part of the excerpt, so those
operations are modelled from the specification (sections 3, 4.1, 4.2, 4.3 of
the spec), as indicated by `Modelled from the spec:` doc comments.
-/

/- ------------------------------------------------------------------ -/
/- Part 1: cryptomatte.cc                                             -/
/- ------------------------------------------------------------------ -/

/-- `enum CryptomatteLayerState` from cryptomatte.cc. -/
inductive CryptomatteLayerState
  | EMPTY
  | FILLED
  | CLOSED
deriving DecidableEq, Repr

/-- `struct CryptomatteLayer`: a state tag, a set of already-seen names
(`blender::Set<std::string>`, modelled as the list of its elements in
insertion order; only membership and emptiness are ever queried), and the
manifest text accumulated in the `std::stringstream`. -/
structure CryptomatteLayer where
  state : CryptomatteLayerState
  names : List String
  manifest : String
deriving DecidableEq, Repr

/-- The character expansion performed by `std::quoted` for one character:
the delimiter `"` and the escape `\` are preceded by a backslash. -/
def quotedChar (c : Char) : String :=
  if c = '"' ∨ c = '\\' then String.mk ['\\', c] else String.mk [c]

/-- `quoted(name)` as used in `CryptomatteLayer::add_hash`: the name wrapped
in double quotes with `"` and `\` escaped. -/
def quoted (s : String) : String :=
  "\"" ++ String.join (s.toList.map quotedChar) ++ "\""

/-- One lowercase hexadecimal digit, as produced by `std::hex`. -/
def hexDigit (n : Nat) : Char :=
  if n < 10 then Char.ofNat (48 + n) else Char.ofNat (87 + n)

/-- `std::setfill('0') << std::setw(sizeof(uint32_t) * 2) << std::hex << h`:
the eight-digit zero-padded lowercase hexadecimal rendering of a `uint32_t`. -/
def hexPad8 (h : Nat) : String :=
  String.mk (((List.range 8).reverse).map (fun i => hexDigit ((h / 16 ^ i) % 16)))

/-- `CryptomatteLayer::add_hash` from cryptomatte.cc.  `names.add(name)`
returns false when the name is already in the set, in which case the function
returns early with the layer unchanged; otherwise the name is added and a
manifest entry `"name":"xxxxxxxx"` is appended, preceded by `{` for the first
item (which also moves the state to FILLED) and by `,` otherwise. -/
def CryptomatteLayer.add_hash (l : CryptomatteLayer) (name : String)
    (cryptomatte_hash : Nat) : CryptomatteLayer :=
  let first_item := l.names.isEmpty
  if name ∈ l.names then l
  else
    let l1 : CryptomatteLayer := { l with names := l.names ++ [name] }
    let l2 : CryptomatteLayer :=
      if first_item then
        { l1 with state := CryptomatteLayerState.FILLED,
                  manifest := l1.manifest ++ "\x7b" }
      else
        { l1 with manifest := l1.manifest ++ "," }
    { l2 with
      manifest := l2.manifest ++ quoted name ++ ":\"" ++
        hexPad8 cryptomatte_hash ++ "\"" }

/-- `CryptomatteLayer::close_manifest` from cryptomatte.cc. -/
def CryptomatteLayer.close_manifest (l : CryptomatteLayer) : CryptomatteLayer :=
  let l1 :=
    if l.state = CryptomatteLayerState.FILLED then
      { l with manifest := l.manifest ++ "\x7d" }
    else l
  { l1 with state := CryptomatteLayerState.CLOSED }

/-- `struct CryptomatteSession`: the three per-kind layers. -/
structure CryptomatteSession where
  objects : CryptomatteLayer
  assets : CryptomatteLayer
  materials : CryptomatteLayer
deriving DecidableEq, Repr

/-- `struct ID` (DNA): only the `name` field is used by cryptomatte.cc.  As in
blender the first two characters of `name` are the ID-type code and the actual
name starts at `name[2]`. -/
structure ID where
  name : String
deriving DecidableEq, Repr

/-- `struct Material` (DNA): only its embedded `ID` is used here. -/
structure Material where
  id : ID
deriving DecidableEq, Repr

/-- `MAX_NAME` from DNA: the size of the fixed `char name[66]` ID name field. -/
def MAX_NAME : Nat := 66

/-- `BLI_strnlen(s, maxlen)`: the length of `s` capped at `maxlen`. -/
def BLI_strnlen (s : String) (maxlen : Nat) : Nat :=
  min s.length maxlen

/-- `BKE_cryptomatte_hash(name, name_len)` from cryptomatte.cc: the
MurmurHash3 (`BLI_hash_mm3`) of the first `name_len` bytes of `name` with
seed 0.  The implementation of `BLI_hash_mm3` is outside the excerpt, so the
hash function itself is passed in as the parameter `mm3 : String → Nat → Nat`
(data, seed); the theorems below hold for every such function. -/
def BKE_cryptomatte_hash (mm3 : String → Nat → Nat) (name : String)
    (name_len : Nat) : Nat :=
  mm3 (name.take name_len) 0

/-- The static helper `cryptomatte_hash(layer, id)` from cryptomatte.cc:
hashes `&id->name[2]` truncated to `MAX_NAME - 2` bytes, records the
(name, hash) pair in the layer, and returns the hash.  All call sites in the
file pass a non-null layer, which is therefore taken by value here; the
updated layer is returned alongside the hash. -/
def cryptomatte_hash (mm3 : String → Nat → Nat) (layer : CryptomatteLayer)
    (id : ID) : Nat × CryptomatteLayer :=
  let name := id.name.drop 2
  let name_len := BLI_strnlen name (MAX_NAME - 2)
  let cryptohash_int := BKE_cryptomatte_hash mm3 name name_len
  (cryptohash_int, layer.add_hash (name.take name_len) cryptohash_int)

/-- `BKE_cryptomatte_material_hash` from cryptomatte.cc: returns 0 for a null
material (the session is untouched), otherwise hashes the material's ID name
into the session's materials layer. -/
def BKE_cryptomatte_material_hash (mm3 : String → Nat → Nat)
    (session : CryptomatteSession) (material : Option Material) :
    Nat × CryptomatteSession :=
  match material with
  | none => (0, session)
  | some m =>
      let r := cryptomatte_hash mm3 session.materials m.id
      (r.1, { session with materials := r.2 })

/-- `BKE_cryptomatte_hash_to_float` from cryptomatte.cc, at the level of the
32-bit word `float_bits` that the function builds and then reinterprets as an
IEEE-754 single via `memcpy`.  The arithmetic is exactly the source's:
mask off the 23 mantissa bits, extract and clamp the 8 exponent bits to
[1, 254], keep the sign bit, and reassemble with shifts and bitwise or. -/
def BKE_cryptomatte_hash_to_float_bits (cryptomatte_hash : Nat) : Nat :=
  let mantissa := cryptomatte_hash &&& ((1 <<< 23) - 1)
  let exponent := (cryptomatte_hash >>> 23) &&& ((1 <<< 8) - 1)
  let exponent2 := max exponent 1
  let exponent3 := min exponent2 254
  let exponent4 := exponent3 <<< 23
  let sign := cryptomatte_hash >>> 31
  let sign2 := sign <<< 31
  sign2 ||| exponent4 ||| mantissa

/- Helper lemmas for the cryptomatte proofs. -/

theorem mem_names_add_hash (l : CryptomatteLayer) (name : String) (h : Nat) :
    name ∈ (l.add_hash name h).names := by
  unfold CryptomatteLayer.add_hash
  by_cases hm : name ∈ l.names
  · simp [hm]
  · simp only [hm, if_false]
    split <;> simp

/-- Bitwise or of disjoint fields is addition: if the low `n` bits of the
left operand are clear and the right operand fits in `n` bits, `|||` is `+`. -/
theorem lor_two_pow_mul_add (n a b : Nat) (hb : b < 2 ^ n) :
    (2 ^ n * a) ||| b = 2 ^ n * a + b := by
  apply Nat.eq_of_testBit_eq
  intro i
  rw [Nat.testBit_or]
  rcases lt_or_le i n with hi | hi
  · have h1 : (2 ^ n * a).testBit i = false := by
      rw [Nat.testBit_to_div_mod]
      have hdvd : 2 ^ n * a / 2 ^ i = 2 ^ (n - i) * a * 2 ^ i / 2 ^ i := by
        rw [mul_comm (2 ^ (n - i)) a, mul_assoc, ← pow_add]
        rw [Nat.sub_add_cancel (le_of_lt hi), mul_comm a (2 ^ n)]
      rw [hdvd, Nat.mul_div_cancel _ (Nat.pos_pow_of_pos i (by norm_num))]
      have : 2 ^ (n - i) * a % 2 = 0 := by
        have hn : n - i = (n - i - 1) + 1 := by omega
        rw [hn, pow_succ, mul_comm (2 ^ (n - i - 1)) 2, mul_assoc]
        exact Nat.mul_mod_right 2 _
      simp [this]
    have h2 : (2 ^ n * a + b).testBit i = b.testBit i := by
      rw [Nat.testBit_to_div_mod, Nat.testBit_to_div_mod]
      have hsplit : 2 ^ n * a + b = 2 ^ i * (2 ^ (n - i) * a) + b := by
        rw [← mul_assoc, ← pow_add, Nat.add_sub_cancel' (le_of_lt hi)]
      rw [hsplit, Nat.mul_add_div (Nat.pos_pow_of_pos i (by norm_num))]
      have : (2 ^ (n - i) * a + b / 2 ^ i) % 2 = (b / 2 ^ i) % 2 := by
        have hn : n - i = (n - i - 1) + 1 := by omega
        rw [hn, pow_succ, mul_comm (2 ^ (n - i - 1)) 2, mul_assoc, Nat.mul_add_mod]
      rw [this]
    rw [h1, h2, Bool.false_or]
  · have hb' : b < 2 ^ i := lt_of_lt_of_le hb (Nat.pow_le_pow_right (by norm_num) hi)
    have h1 : b.testBit i = false := Nat.testBit_lt_two_pow hb'
    have h2 : (2 ^ n * a + b).testBit i = (2 ^ n * a).testBit i := by
      rw [Nat.testBit_to_div_mod, Nat.testBit_to_div_mod]
      have hih : 2 ^ i = 2 ^ n * 2 ^ (i - n) := by
        rw [← pow_add, Nat.add_sub_cancel' hi]
      rw [hih, ← Nat.div_div_eq_div_mul, ← Nat.div_div_eq_div_mul]
      rw [Nat.mul_add_div (Nat.pos_pow_of_pos n (by norm_num)),
        Nat.div_eq_of_lt hb, Nat.add_zero,
        Nat.mul_div_cancel_left a (Nat.pos_pow_of_pos n (by norm_num))]
    rw [h1, h2, Bool.or_false]

/-- A name already in the layer's set makes `add_hash` a no-op: the
`names.add` call reports the name as present and the function returns early. -/
theorem add_hash_of_mem (l : CryptomatteLayer) (name : String) (h : Nat)
    (hm : name ∈ l.names) : l.add_hash name h = l := by
  unfold CryptomatteLayer.add_hash
  simp [hm]

/-- C8: `CryptomatteLayer::add_hash` is idempotent in the name: for every
layer state and every (name, hash) pair, calling `add_hash` twice with the
same name leaves the layer (its name set and its manifest string) identical
to calling it once — the second call returns early without appending. -/
theorem add_hash_idempotent (l : CryptomatteLayer) (name : String) (h : Nat) :
    (l.add_hash name h).add_hash name h = l.add_hash name h :=
  add_hash_of_mem _ name h (mem_names_add_hash l name h)

/-- Closed arithmetic form of `BKE_cryptomatte_hash_to_float_bits`: the
result word is the input's sign bit, the clamped exponent field, and the
input's mantissa bits, assembled at their bit positions. -/
theorem hash_to_float_bits_closed_form (h : Nat) :
    BKE_cryptomatte_hash_to_float_bits h =
      (h >>> 31) * 2 ^ 31 +
        (min (max ((h / 2 ^ 23) % 2 ^ 8) 1) 254) * 2 ^ 23 + h % 2 ^ 23 := by
  unfold BKE_cryptomatte_hash_to_float_bits
  simp only [Nat.shiftLeft_eq, one_mul, Nat.and_pow_two_sub_one_eq_mod,
    Nat.shiftRight_eq_div_pow]
  have hE1 : min (max (h / 2 ^ 23 % 2 ^ 8) 1) 254 ≤ 254 := min_le_right _ _
  have hM : h % 2 ^ 23 < 2 ^ 23 := Nat.mod_lt _ (by norm_num)
  have step1 : h / 2 ^ 31 * 2 ^ 31 |||
        min (max (h / 2 ^ 23 % 2 ^ 8) 1) 254 * 2 ^ 23 =
      h / 2 ^ 31 * 2 ^ 31 + min (max (h / 2 ^ 23 % 2 ^ 8) 1) 254 * 2 ^ 23 := by
    rw [mul_comm (h / 2 ^ 31)]
    exact lor_two_pow_mul_add 31 _ _ (by
      calc min (max (h / 2 ^ 23 % 2 ^ 8) 1) 254 * 2 ^ 23
          ≤ 254 * 2 ^ 23 := Nat.mul_le_mul_right _ hE1
        _ < 2 ^ 31 := by norm_num)
  rw [step1]
  have split2 : h / 2 ^ 31 * 2 ^ 31 + min (max (h / 2 ^ 23 % 2 ^ 8) 1) 254 * 2 ^ 23 =
      2 ^ 23 * (h / 2 ^ 31 * 2 ^ 8 + min (max (h / 2 ^ 23 % 2 ^ 8) 1) 254) := by
    ring
  rw [split2, lor_two_pow_mul_add 23 _ _ hM, ← split2]

/-- C9: for every 32-bit hash value, `BKE_cryptomatte_hash_to_float` produces
a word (reinterpreted as a float) that keeps the input's sign bit and its 23
mantissa bits unchanged, while clamping the 8-bit exponent field into
[1, 254]; consequently the exponent field is never 255 (NaN/infinity) and
never 0 (denormal encoding). -/
theorem hash_to_float_keeps_sign_mantissa_clamps_exponent (h : Nat)
    (hh : h < 2 ^ 32) :
    BKE_cryptomatte_hash_to_float_bits h &&& ((1 <<< 23) - 1) =
        h &&& ((1 <<< 23) - 1) ∧
    BKE_cryptomatte_hash_to_float_bits h >>> 31 = h >>> 31 ∧
    (BKE_cryptomatte_hash_to_float_bits h >>> 23) &&& ((1 <<< 8) - 1) =
        min (max ((h >>> 23) &&& ((1 <<< 8) - 1)) 1) 254 ∧
    (BKE_cryptomatte_hash_to_float_bits h >>> 23) &&& ((1 <<< 8) - 1) ≠ 255 ∧
    (BKE_cryptomatte_hash_to_float_bits h >>> 23) &&& ((1 <<< 8) - 1) ≠ 0 ∧
    BKE_cryptomatte_hash_to_float_bits h < 2 ^ 32 := by
  have key := hash_to_float_bits_closed_form h
  simp only [Nat.shiftLeft_eq, one_mul, Nat.and_pow_two_sub_one_eq_mod,
    Nat.shiftRight_eq_div_pow] at key ⊢
  rw [key]
  have hE1 : 1 ≤ min (max (h / 2 ^ 23 % 2 ^ 8) 1) 254 :=
    le_min (le_max_right _ _) (by norm_num)
  have hE2 : min (max (h / 2 ^ 23 % 2 ^ 8) 1) 254 ≤ 254 := min_le_right _ _
  have hM : h % 2 ^ 23 < 2 ^ 23 := Nat.mod_lt _ (by norm_num)
  have hS : h / 2 ^ 31 ≤ 1 := by omega
  generalize hEdef : min (max (h / 2 ^ 23 % 2 ^ 8) 1) 254 = E at *
  generalize h / 2 ^ 31 = S at *
  generalize h % 2 ^ 23 = M at *
  refine ⟨by omega, by omega, by omega, by omega, by omega, by omega⟩

/-- Witness for C9 at the concrete hash 0xFFC01234: the hypothesis
`h < 2 ^ 32` holds and the theorem applies. -/
theorem hash_to_float_keeps_sign_mantissa_clamps_exponent_witness :
    (0xFFC01234 : Nat) < 2 ^ 32 ∧
    (BKE_cryptomatte_hash_to_float_bits 0xFFC01234 &&& ((1 <<< 23) - 1) =
        (0xFFC01234 : Nat) &&& ((1 <<< 23) - 1) ∧
    BKE_cryptomatte_hash_to_float_bits 0xFFC01234 >>> 31 =
        (0xFFC01234 : Nat) >>> 31 ∧
    (BKE_cryptomatte_hash_to_float_bits 0xFFC01234 >>> 23) &&& ((1 <<< 8) - 1) =
        min (max (((0xFFC01234 : Nat) >>> 23) &&& ((1 <<< 8) - 1)) 1) 254 ∧
    (BKE_cryptomatte_hash_to_float_bits 0xFFC01234 >>> 23) &&& ((1 <<< 8) - 1) ≠ 255 ∧
    (BKE_cryptomatte_hash_to_float_bits 0xFFC01234 >>> 23) &&& ((1 <<< 8) - 1) ≠ 0 ∧
    BKE_cryptomatte_hash_to_float_bits 0xFFC01234 < 2 ^ 32) :=
  ⟨by norm_num,
   hash_to_float_keeps_sign_mantissa_clamps_exponent 0xFFC01234 (by norm_num)⟩

/-- C10: `BKE_cryptomatte_material_hash` returns 0 and leaves the session
untouched for a null material; for a non-null material it returns the
MurmurHash3 of the material's name (the ID name without its two-character
type code, capped at MAX_NAME - 2 bytes) and records the (name, hash) pair in
the session's materials layer, leaving the objects and assets layers alone. -/
theorem material_hash_null_and_records (mm3 : String → Nat → Nat)
    (session : CryptomatteSession) :
    BKE_cryptomatte_material_hash mm3 session none = (0, session) ∧
    ∀ m : Material,
      (BKE_cryptomatte_material_hash mm3 session (some m)).1 =
        BKE_cryptomatte_hash mm3 (m.id.name.drop 2)
          (BLI_strnlen (m.id.name.drop 2) (MAX_NAME - 2)) ∧
      (BKE_cryptomatte_material_hash mm3 session (some m)).2.materials =
        session.materials.add_hash
          ((m.id.name.drop 2).take (BLI_strnlen (m.id.name.drop 2) (MAX_NAME - 2)))
          (BKE_cryptomatte_hash mm3 (m.id.name.drop 2)
            (BLI_strnlen (m.id.name.drop 2) (MAX_NAME - 2))) ∧
      (BKE_cryptomatte_material_hash mm3 session (some m)).2.objects =
        session.objects ∧
      (BKE_cryptomatte_material_hash mm3 session (some m)).2.assets =
        session.assets ∧
      ((m.id.name.drop 2).take (BLI_strnlen (m.id.name.drop 2) (MAX_NAME - 2)))
        ∈ (BKE_cryptomatte_material_hash mm3 session (some m)).2.materials.names :=
  ⟨rfl, fun m =>
    ⟨rfl, rfl, rfl, rfl, mem_names_add_hash session.materials _ _⟩⟩

/- ------------------------------------------------------------------ -/
/- Part 2: the geometry-set data model                                -/
/- ------------------------------------------------------------------ -/

/-- `enum class GeometryComponentType` from the geometry-set header. -/
inductive GeometryComponentType
  | Mesh
  | PointCloud
  | Instances
deriving DecidableEq, Repr

instance : Fintype GeometryComponentType :=
  ⟨⟨{GeometryComponentType.Mesh, GeometryComponentType.PointCloud,
     GeometryComponentType.Instances}, by decide⟩, fun x => by cases x <;> decide⟩

/-- `AttributeDomain`: the element granularity an attribute is defined over.
The full enumeration is owned by an external module; the model keeps the two
domains the spec names (per-point, per-face) plus one more. -/
inductive AttributeDomain
  | Point
  | Edge
  | Face
deriving DecidableEq, Repr

instance : Fintype AttributeDomain :=
  ⟨⟨{AttributeDomain.Point, AttributeDomain.Edge, AttributeDomain.Face},
    by decide⟩, fun x => by cases x <;> decide⟩

/-- `CustomDataType`: the value type of an attribute column.  The full
enumeration is external; a closed sample suffices for the model. -/
inductive CustomDataType
  | CDFloat
  | CDInt
  | CDFloat3
deriving DecidableEq, Repr

/-- Attribute element values are opaque to this data model; a single scalar
carrier stands in for all of them. -/
abbrev AttrValue := Int

/-- One named attribute column: its domain, its value type, and its
per-element data. -/
structure Attr where
  domain : AttributeDomain
  dataType : CustomDataType
  data : List AttrValue
deriving DecidableEq, Repr

/-- `class GeometryComponent` (fields `users_`, `type_` from the header, the
attribute columns standing for the kind-specific payload, and the per-domain
element counts of that payload). -/
structure GeometryComponent where
  users_ : Nat
  type_ : GeometryComponentType
  attrs : List (String × Attr)
  domain_sizes : AttributeDomain → Nat

/-- `GeometryComponent::is_mutable`: the header documents the reference count
as "when it is larger than one, the component becomes immutable", and the
spec fixes `is_mutable() ⇔ reference_count == 1`. -/
def GeometryComponent.is_mutable (c : GeometryComponent) : Bool :=
  c.users_ == 1

/-- `GeometryComponent::user_add`: increment the reference count. -/
def GeometryComponent.user_add (c : GeometryComponent) : GeometryComponent :=
  { c with users_ := c.users_ + 1 }

/-- Modelled from the spec: the fixed builtin attribute names of each
component kind (the concrete lists live in the missing `.cc`; the spec says
builtins are named, always present, and cannot be created or removed, and
names mesh `position` as an example). -/
def builtin_attribute_names : GeometryComponentType → List String
  | GeometryComponentType.Mesh => ["position"]
  | GeometryComponentType.PointCloud => ["position", "radius"]
  | GeometryComponentType.Instances => []

/-- `GeometryComponent::attribute_is_builtin`: true for the fixed,
always-present attribute names of the component's kind. -/
def GeometryComponent.attribute_is_builtin (c : GeometryComponent)
    (attribute_name : String) : Bool :=
  decide (attribute_name ∈ builtin_attribute_names c.type_)

/-- Modelled from the spec: which attribute domains a component kind
supports; "a point cloud supports only the point domain", a mesh supports
all of them, and the instances component exposes no attribute columns. -/
def GeometryComponent.attribute_domain_supported (c : GeometryComponent)
    (domain : AttributeDomain) : Bool :=
  match c.type_ with
  | GeometryComponentType.Mesh => true
  | GeometryComponentType.PointCloud => domain == AttributeDomain.Point
  | GeometryComponentType.Instances => false

/-- Modelled from the spec: supported (domain, type) combinations; every
sampled type is available on every supported domain. -/
def GeometryComponent.attribute_domain_with_type_supported
    (c : GeometryComponent) (domain : AttributeDomain)
    (_data_type : CustomDataType) : Bool :=
  c.attribute_domain_supported domain

/-- Modelled from the spec: `attribute_domain_size(domain)` → element count
for that domain; fails (returns 0) if the domain is unsupported. -/
def GeometryComponent.attribute_domain_size (c : GeometryComponent)
    (domain : AttributeDomain) : Nat :=
  if c.attribute_domain_supported domain then c.domain_sizes domain else 0

/-- First attribute column with the given name, if any. -/
def lookupAttr (attrs : List (String × Attr)) (attribute_name : String) :
    Option Attr :=
  match attrs with
  | [] => none
  | (n, a) :: rest =>
      if n = attribute_name then some a else lookupAttr rest attribute_name

/-- `GeometryComponent::attribute_try_get_for_read(name)` (one-argument
form): the highest-priority attribute with the given name, or null. -/
def GeometryComponent.attribute_try_get_for_read (c : GeometryComponent)
    (attribute_name : String) : Option Attr :=
  lookupAttr c.attrs attribute_name

/-- `GeometryComponent::attribute_exists`: true when any attribute with this
name is present (builtins of a freshly created component are present from
creation on). -/
def GeometryComponent.attribute_exists (c : GeometryComponent)
    (attribute_name : String) : Bool :=
  (c.attribute_try_get_for_read attribute_name).isSome

/-- Modelled from the spec: `attribute_try_adapt_domain` interpolates an
attribute to another domain.  The identity interpolation is used when the
domain already matches; otherwise the column is resampled to the requested
domain's element count (which interpolations the concrete kinds implement is
not part of the excerpt, so the model makes all of them available). -/
def GeometryComponent.attribute_try_adapt_domain (c : GeometryComponent)
    (a : Attr) (domain : AttributeDomain) : Attr :=
  if a.domain = domain then a
  else
    { domain := domain, dataType := a.dataType,
      data := List.replicate (c.attribute_domain_size domain) (a.data.headD 0) }

/-- Modelled from the spec: conversion of a column to a requested value
type.  Element values are opaque here, so conversion relabels the type. -/
def convert_attr_type (a : Attr) (data_type : CustomDataType) : Attr :=
  { a with dataType := data_type }

/-- `GeometryComponent::attribute_try_get_for_read(name, domain, type)`
(three-argument form): the named attribute interpolated to the requested
domain and converted to the requested type, or null when the name is
absent. -/
def GeometryComponent.attribute_try_get_for_read3 (c : GeometryComponent)
    (attribute_name : String) (domain : AttributeDomain)
    (data_type : CustomDataType) : Option Attr :=
  (lookupAttr c.attrs attribute_name).map
    (fun a => convert_attr_type (c.attribute_try_adapt_domain a domain) data_type)

/-- `GeometryComponent::attribute_get_constant_for_read`: a read-only dummy
attribute that yields the same value for every element of the domain. -/
def GeometryComponent.attribute_get_constant_for_read (c : GeometryComponent)
    (domain : AttributeDomain) (data_type : CustomDataType)
    (value : AttrValue) : Attr :=
  { domain := domain, dataType := data_type,
    data := List.replicate (c.attribute_domain_size domain) value }

/-- Modelled from the spec: `attribute_get_for_read(name, domain, type,
default_value)` → never null: interpolated/converted data when the attribute
exists, otherwise a constant view filled with `default_value`. -/
def GeometryComponent.attribute_get_for_read (c : GeometryComponent)
    (attribute_name : String) (domain : AttributeDomain)
    (data_type : CustomDataType) (default_value : AttrValue) : Option Attr :=
  match c.attribute_try_get_for_read3 attribute_name domain data_type with
  | some found => some found
  | none => some (c.attribute_get_constant_for_read domain data_type default_value)

/-- Modelled from the spec: `attribute_try_get_for_write(name)` → mutable
view when the attribute exists and the component `is_mutable()`; null on
read-only (shared) components or a missing attribute. -/
def GeometryComponent.attribute_try_get_for_write (c : GeometryComponent)
    (attribute_name : String) : Option Attr :=
  if c.is_mutable then lookupAttr c.attrs attribute_name else none

/-- Modelled from the spec: `attribute_try_create(name, domain, type)` →
creates a new custom attribute (with one zeroed element per domain element);
fails when the domain/type combination is unsupported, the name collides with
a builtin, the component is immutable, or the name is already taken. -/
def GeometryComponent.attribute_try_create (c : GeometryComponent)
    (attribute_name : String) (domain : AttributeDomain)
    (data_type : CustomDataType) : Bool × GeometryComponent :=
  if !c.attribute_domain_with_type_supported domain data_type then (false, c)
  else if c.attribute_is_builtin attribute_name then (false, c)
  else if !c.is_mutable then (false, c)
  else if (lookupAttr c.attrs attribute_name).isSome then (false, c)
  else
    (true,
     { c with
       attrs := (attribute_name,
         { domain := domain, dataType := data_type,
           data := List.replicate (c.attribute_domain_size domain) 0 }) :: c.attrs })

/-- Modelled from the spec: `attribute_try_delete(name)` → removes a custom
attribute; fails for builtins or when the name is absent. -/
def GeometryComponent.attribute_try_delete (c : GeometryComponent)
    (attribute_name : String) : Bool × GeometryComponent :=
  if c.attribute_is_builtin attribute_name then (false, c)
  else if (lookupAttr c.attrs attribute_name).isSome then
    (true, { c with attrs := c.attrs.filter (fun p => p.1 != attribute_name) })
  else (false, c)

/-- Modelled from the spec: `create(kind)` → new component of the given
kind with reference count 1; its builtin attributes are present and it holds
no elements. -/
def GeometryComponent.create (component_type : GeometryComponentType) :
    GeometryComponent :=
  { users_ := 1, type_ := component_type,
    attrs := (builtin_attribute_names component_type).map
      (fun n => (n, { domain := AttributeDomain.Point,
                      dataType := CustomDataType.CDFloat3, data := [] })),
    domain_sizes := fun _ => 0 }

/-- Modelled from the spec: `copy()` → deep duplicate of the payload, fresh
component, reference count 1. -/
def GeometryComponent.copy (c : GeometryComponent) : GeometryComponent :=
  { c with users_ := 1 }

/-- Identity of a heap-allocated component body.  The C++ code shares
components between geometry sets through pointers; the model uses ids into an
explicit store. -/
abbrev CompId := Nat

/-- The heap of component bodies: an allocation counter and the live
components.  Ids below `next` may be live; ids at or above `next` are never
allocated yet. -/
structure Store where
  next : CompId
  comps : CompId → Option GeometryComponent

/-- Dereference a component pointer. -/
def Store.get (s : Store) (id : CompId) : Option GeometryComponent :=
  s.comps id

/-- Overwrite the body a pointer refers to. -/
def Store.set (s : Store) (id : CompId) (c : GeometryComponent) : Store :=
  { s with comps := fun j => if j = id then some c else s.comps j }

/-- Allocate a fresh component body; returns the new store and its id. -/
def Store.alloc (s : Store) (c : GeometryComponent) : Store × CompId :=
  ({ next := s.next + 1,
     comps := fun j => if j = s.next then some c else s.comps j }, s.next)

/-- Deallocate a component body (reference count reached zero). -/
def Store.free (s : Store) (id : CompId) : Store :=
  { s with comps := fun j => if j = id then none else s.comps j }

/-- `user_add()` on the component behind `id`. -/
def Store.user_add_at (s : Store) (id : CompId) : Store :=
  match s.comps id with
  | none => s
  | some c => s.set id c.user_add

/-- `user_remove()` on the component behind `id`: decrement the reference
count and destroy the component when it reaches zero. -/
def Store.user_remove_at (s : Store) (id : CompId) : Store :=
  match s.comps id with
  | none => s
  | some c =>
      if c.users_ ≤ 1 then s.free id
      else s.set id { c with users_ := c.users_ - 1 }

/-- Reference count of the component behind `id` (0 when dead). -/
def Store.usersAt (s : Store) (id : CompId) : Nat :=
  match s.comps id with
  | none => 0
  | some c => c.users_

/-- The attribute columns of the component behind `id`, the payload data
observable through read access. -/
def Store.attrsAt (s : Store) (id : CompId) : Option (List (String × Attr)) :=
  (s.comps id).map (fun c => c.attrs)

/-- `struct GeometrySet` from the header: a mapping from component kind to a
shared, reference-counted component pointer; at most one component per
kind. -/
structure GeometrySet where
  components_ : GeometryComponentType → Option CompId

/-- A geometry set holding no components. -/
def GeometrySet.empty : GeometrySet :=
  ⟨fun _ => none⟩

/-- `GeometrySet::has(kind)`: membership test. -/
def GeometrySet.has (g : GeometrySet) (component_type : GeometryComponentType) :
    Bool :=
  (g.components_ component_type).isSome

/-- Replace the mapping entry for one kind. -/
def GeometrySet.set_entry (g : GeometrySet)
    (component_type : GeometryComponentType) (id : CompId) : GeometrySet :=
  ⟨fun t => if t = component_type then some id else g.components_ t⟩

/-- `GeometrySet::get_component_for_read(kind)`: a read-only pointer to the
existing component, or null when absent; never copies. -/
def GeometrySet.get_component_for_read (g : GeometrySet) (s : Store)
    (component_type : GeometryComponentType) : Option GeometryComponent :=
  (g.components_ component_type).bind s.get

/-- The attribute columns observable through
`get_component_for_read(kind)`. -/
def GeometrySet.observe_attrs (g : GeometrySet) (s : Store)
    (component_type : GeometryComponentType) : Option (List (String × Attr)) :=
  (g.get_component_for_read s component_type).map (fun c => c.attrs)

/-- Modelled from the spec: `get_component_for_write(kind)` — if no
component of the kind exists, create an empty owned one; if the existing
component's reference count is larger than one, replace it with a fresh
`copy()` (releasing one reference of the copied-away original) before
returning.  Returns the updated set, the updated store, and the id of the
exclusively-owned component handed to the caller. -/
def GeometrySet.get_component_for_write (g : GeometrySet) (s : Store)
    (component_type : GeometryComponentType) :
    GeometrySet × Store × CompId :=
  match g.components_ component_type with
  | none =>
      let r := s.alloc (GeometryComponent.create component_type)
      (g.set_entry component_type r.2, r.1, r.2)
  | some id =>
      match s.get id with
      | none =>
          let r := s.alloc (GeometryComponent.create component_type)
          (g.set_entry component_type r.2, r.1, r.2)
      | some c =>
          if 1 < c.users_ then
            let r := (s.set id { c with users_ := c.users_ - 1 }).alloc c.copy
            (g.set_entry component_type r.2, r.1, r.2)
          else (g, s, id)

/-- Bump the reference count behind an optional entry of the mapping. -/
def Store.bump (s : Store) (entry : Option CompId) : Store :=
  match entry with
  | none => s
  | some id => s.user_add_at id

/-- Modelled from the spec: copying a GeometrySet duplicates the
kind→component mapping (sharing the component bodies and incrementing their
reference counts), not the payload. -/
def GeometrySet.copyset (g : GeometrySet) (s : Store) : GeometrySet × Store :=
  (⟨g.components_⟩,
   ((s.bump (g.components_ GeometryComponentType.Mesh)).bump
       (g.components_ GeometryComponentType.PointCloud)).bump
     (g.components_ GeometryComponentType.Instances))

/-- Modelled from the spec: `add(component)` inserts/replaces the mapping
entry for the component's kind, incrementing its reference count; if an
entry already existed it is released first. -/
def GeometrySet.add (g : GeometrySet) (s : Store) (id : CompId) :
    GeometrySet × Store :=
  match s.get id with
  | none => (g, s)
  | some c =>
      let s1 := s.user_add_at id
      let s2 :=
        match g.components_ c.type_ with
        | none => s1
        | some old => s1.user_remove_at old
      (g.set_entry c.type_ id, s2)

/-- In-place mutation of the payload of the component behind `id`, the way a
caller writes through the mutable component reference returned by
`get_component_for_write`. -/
def Store.modify_attrs (s : Store) (id : CompId)
    (f : List (String × Attr) → List (String × Attr)) : Store :=
  match s.comps id with
  | none => s
  | some c => s.set id { c with attrs := f c.attrs }

/-- `is_mutable()` of the component behind `id` (false when dead). -/
def Store.mutableAt (s : Store) (id : CompId) : Bool :=
  match s.comps id with
  | none => false
  | some c => c.is_mutable

/-- Well-formedness of one mapping entry of a geometry set against a store:
a mapped id is live, was allocated, carries at least one reference, and its
component is of the mapping's kind. -/
def wfAt (g : GeometrySet) (s : Store) (t : GeometryComponentType) : Bool :=
  match g.components_ t with
  | none => true
  | some id =>
      match s.comps id with
      | none => false
      | some c => decide (id < s.next) && decide (1 ≤ c.users_) && (c.type_ == t)

/-- Well-formedness of a geometry set against a store. -/
def WF (g : GeometrySet) (s : Store) : Prop :=
  ∀ t, wfAt g s t = true

instance (g : GeometrySet) (s : Store) : Decidable (WF g s) :=
  inferInstanceAs (Decidable (∀ t, wfAt g s t = true))

/-- The full copy-then-write scenario of the spec's first testable property:
copy the geometry set `g`, request write access to the copy's component of
kind `t`, and mutate the returned component's payload with `f`.  Returns the
final store. -/
def copy_write_mutate (g : GeometrySet) (s : Store)
    (t : GeometryComponentType)
    (f : List (String × Attr) → List (String × Attr)) : Store :=
  ((g.copyset s).1.get_component_for_write (g.copyset s).2 t).2.1.modify_attrs
    ((g.copyset s).1.get_component_for_write (g.copyset s).2 t).2.2 f

/-- `blender::float3` triples; instance transforms are opaque value triples
to this data model. -/
abbrev float3 := Int × Int × Int

/-- `InstancedData`: the single normalized representation of what an
instance references (an object or a collection, held by handle). -/
inductive InstancedData
  | ofObject (object : Nat)
  | ofCollection (collection : Nat)
deriving DecidableEq, Repr

/-- `class InstancesComponent` from the header: five parallel arrays
describing N instances. -/
structure InstancesComponent where
  positions_ : List float3
  rotations_ : List float3
  scales_ : List float3
  ids_ : List Int
  instanced_data_ : List InstancedData
deriving DecidableEq, Repr

/-- A freshly constructed instances component: all arrays empty. -/
def InstancesComponent.emptyInstances : InstancesComponent :=
  ⟨[], [], [], [], []⟩

/-- Modelled from the spec: `add_instance(data, position, rotation, scale,
id)` appends one entry to every parallel array; the object/collection
overloads normalize their target to `InstancedData` and call this one. -/
def InstancesComponent.add_instance (ic : InstancesComponent)
    (data : InstancedData) (position rotation scale : float3) (id : Int) :
    InstancesComponent :=
  { positions_ := ic.positions_ ++ [position],
    rotations_ := ic.rotations_ ++ [rotation],
    scales_ := ic.scales_ ++ [scale],
    ids_ := ic.ids_ ++ [id],
    instanced_data_ := ic.instanced_data_ ++ [data] }

/-- The `Object*` overload of `add_instance`. -/
def InstancesComponent.add_instance_object (ic : InstancesComponent)
    (object : Nat) (position : float3) (rotation : float3 := (0, 0, 0))
    (scale : float3 := (1, 1, 1)) (id : Int := -1) : InstancesComponent :=
  ic.add_instance (InstancedData.ofObject object) position rotation scale id

/-- The `Collection*` overload of `add_instance`. -/
def InstancesComponent.add_instance_collection (ic : InstancesComponent)
    (collection : Nat) (position : float3) (rotation : float3 := (0, 0, 0))
    (scale : float3 := (1, 1, 1)) (id : Int := -1) : InstancesComponent :=
  ic.add_instance (InstancedData.ofCollection collection) position rotation scale id

/-- `InstancesComponent::positions()` (read-only span). -/
def InstancesComponent.positions (ic : InstancesComponent) : List float3 :=
  ic.positions_

/-- `InstancesComponent::instances_amount()`: the current N. -/
def InstancesComponent.instances_amount (ic : InstancesComponent) : Nat :=
  ic.positions_.length

/-- `InstancesComponent::is_empty()`: N == 0. -/
def InstancesComponent.is_empty (ic : InstancesComponent) : Bool :=
  ic.instances_amount == 0

/-- The invariant of the instances component: all five parallel arrays have
the same length N. -/
def InstancesComponent.arrays_synced (ic : InstancesComponent) : Prop :=
  ic.rotations_.length = ic.positions_.length ∧
  ic.scales_.length = ic.positions_.length ∧
  ic.ids_.length = ic.positions_.length ∧
  ic.instanced_data_.length = ic.positions_.length

instance (ic : InstancesComponent) : Decidable ic.arrays_synced :=
  inferInstanceAs (Decidable (_ ∧ _ ∧ _ ∧ _))

/- Helper lemmas about the component store. -/

theorem Store.next_set (s : Store) (id : CompId) (c : GeometryComponent) :
    (s.set id c).next = s.next := rfl

theorem Store.next_user_add_at (s : Store) (id : CompId) :
    (s.user_add_at id).next = s.next := by
  unfold Store.user_add_at
  cases s.comps id <;> rfl

theorem Store.next_bump (s : Store) (entry : Option CompId) :
    (s.bump entry).next = s.next := by
  cases entry with
  | none => rfl
  | some id => exact s.next_user_add_at id

theorem GeometrySet.next_copyset (g : GeometrySet) (s : Store) :
    ((g.copyset s).2).next = s.next := by
  unfold GeometrySet.copyset
  simp [Store.next_bump]

theorem Store.attrsAt_set_users (s : Store) (id : CompId)
    (c : GeometryComponent) (u : Nat) (h : s.comps id = some c) (j : CompId) :
    (s.set id { c with users_ := u }).attrsAt j = s.attrsAt j := by
  unfold Store.attrsAt Store.set
  by_cases hj : j = id
  · subst hj; simp [h]
  · simp [hj]

theorem Store.attrsAt_user_add_at (s : Store) (id : CompId) (j : CompId) :
    (s.user_add_at id).attrsAt j = s.attrsAt j := by
  unfold Store.user_add_at
  cases hc : s.comps id with
  | none => rfl
  | some c => exact s.attrsAt_set_users id c (c.users_ + 1) hc j

theorem Store.attrsAt_bump (s : Store) (entry : Option CompId) (j : CompId) :
    (s.bump entry).attrsAt j = s.attrsAt j := by
  cases entry with
  | none => rfl
  | some id => exact s.attrsAt_user_add_at id j

theorem GeometrySet.attrsAt_copyset (g : GeometrySet) (s : Store) (j : CompId) :
    ((g.copyset s).2).attrsAt j = s.attrsAt j := by
  unfold GeometrySet.copyset
  simp [Store.attrsAt_bump]

theorem Store.usersAt_user_add_at_mono (s : Store) (id : CompId) (j : CompId) :
    s.usersAt j ≤ (s.user_add_at id).usersAt j := by
  unfold Store.user_add_at
  cases hc : s.comps id with
  | none => exact Nat.le_refl _
  | some c =>
      unfold Store.usersAt Store.set GeometryComponent.user_add
      by_cases hj : j = id
      · subst hj; simp [hc]
      · simp [hj]

theorem Store.usersAt_user_add_at_self (s : Store) (id : CompId)
    (h : 1 ≤ s.usersAt id) : 2 ≤ (s.user_add_at id).usersAt id := by
  unfold Store.usersAt at h
  unfold Store.user_add_at
  cases hc : s.comps id with
  | none => rw [hc] at h; exact absurd h (by norm_num)
  | some c =>
      rw [hc] at h
      simp only at h
      unfold Store.usersAt Store.set GeometryComponent.user_add
      simp
      omega

theorem Store.usersAt_bump_mono (s : Store) (entry : Option CompId) (j : CompId) :
    s.usersAt j ≤ (s.bump entry).usersAt j := by
  cases entry with
  | none => exact Nat.le_refl _
  | some id => exact s.usersAt_user_add_at_mono id j

/-- After copying a geometry set, every component the original maps still
carries its own reference plus the copy's: at least two users. -/
theorem GeometrySet.usersAt_copyset_ge_two (g : GeometrySet) (s : Store)
    (t : GeometryComponentType) (id : CompId)
    (hmap : g.components_ t = some id) (h : 1 ≤ s.usersAt id) :
    2 ≤ ((g.copyset s).2).usersAt id := by
  unfold GeometrySet.copyset
  cases t with
  | Mesh =>
      rw [hmap]
      calc 2 ≤ (s.bump (some id)).usersAt id := by
              exact s.usersAt_user_add_at_self id h
        _ ≤ _ := le_trans
              ((s.bump (some id)).usersAt_bump_mono _ id)
              (((s.bump (some id)).bump _).usersAt_bump_mono _ id)
  | PointCloud =>
      rw [hmap]
      have h1 : 1 ≤ (s.bump (g.components_ GeometryComponentType.Mesh)).usersAt id :=
        le_trans h (s.usersAt_bump_mono _ id)
      calc 2 ≤ ((s.bump (g.components_ GeometryComponentType.Mesh)).bump
              (some id)).usersAt id :=
              (s.bump (g.components_ GeometryComponentType.Mesh)).usersAt_user_add_at_self id h1
        _ ≤ _ := by exact Store.usersAt_bump_mono _ _ id
  | Instances =>
      rw [hmap]
      have h1 : 1 ≤ ((s.bump (g.components_ GeometryComponentType.Mesh)).bump
          (g.components_ GeometryComponentType.PointCloud)).usersAt id :=
        le_trans (le_trans h (s.usersAt_bump_mono _ id))
          (Store.usersAt_bump_mono _ _ id)
      exact Store.usersAt_user_add_at_self _ id h1

theorem Store.exists_comp_of_usersAt_ge_two (s : Store) (id : CompId)
    (h : 2 ≤ s.usersAt id) :
    ∃ c, s.comps id = some c ∧ 2 ≤ c.users_ := by
  unfold Store.usersAt at h
  cases hc : s.comps id with
  | none => rw [hc] at h; exact absurd h (by norm_num)
  | some c => rw [hc] at h; exact ⟨c, rfl, h⟩

theorem Store.attrsAt_alloc_ne (s : Store) (c : GeometryComponent) (j : CompId)
    (h : j ≠ s.next) : (s.alloc c).1.attrsAt j = s.attrsAt j := by
  unfold Store.alloc Store.attrsAt
  simp [h]

theorem Store.attrsAt_modify_ne (s : Store) (id : CompId)
    (f : List (String × Attr) → List (String × Attr)) (j : CompId)
    (h : j ≠ id) : (s.modify_attrs id f).attrsAt j = s.attrsAt j := by
  unfold Store.modify_attrs
  cases hc : s.comps id with
  | none => rfl
  | some c =>
      unfold Store.attrsAt Store.set
      simp [h]

theorem Store.comps_user_remove_at_ne (s : Store) (old j : CompId)
    (h : j ≠ old) : (s.user_remove_at old).comps j = s.comps j := by
  unfold Store.user_remove_at
  cases hc : s.comps old with
  | none => rfl
  | some c =>
      by_cases hu : c.users_ ≤ 1
      · simp only [hu, if_pos]
        unfold Store.free
        simp [h]
      · simp only [hu, if_neg, if_false]
        unfold Store.set
        simp [h]

theorem GeometrySet.observe_attrs_eq (g : GeometrySet) (s : Store)
    (t : GeometryComponentType) :
    g.observe_attrs s t = (g.components_ t).bind s.attrsAt := by
  unfold GeometrySet.observe_attrs GeometrySet.get_component_for_read
    Store.attrsAt Store.get
  cases g.components_ t <;> rfl

theorem GeometrySet.copyset_fst (g : GeometrySet) (s : Store) :
    (g.copyset s).1.components_ = g.components_ := rfl

/-- `get_component_for_write` in the absent-component case: a fresh empty
owned component is allocated and mapped. -/
theorem GeometrySet.gcfw_none (g : GeometrySet) (s : Store)
    (t : GeometryComponentType) (h : g.components_ t = none) :
    g.get_component_for_write s t =
      (g.set_entry t s.next, (s.alloc (GeometryComponent.create t)).1, s.next) := by
  unfold GeometrySet.get_component_for_write
  rw [h]
  rfl

/-- `get_component_for_write` in the shared-component case: the existing
component has more than one user, so it is replaced by a fresh `copy()`,
and one reference of the original is released. -/
theorem GeometrySet.gcfw_shared (g : GeometrySet) (s : Store)
    (t : GeometryComponentType) (id : CompId) (c : GeometryComponent)
    (hmap : g.components_ t = some id) (hc : s.comps id = some c)
    (hu : 1 < c.users_) :
    g.get_component_for_write s t =
      (g.set_entry t s.next,
       ((s.set id { c with users_ := c.users_ - 1 }).alloc c.copy).1, s.next) := by
  unfold GeometrySet.get_component_for_write Store.get
  rw [hmap]
  simp only [hc]
  rw [if_pos hu]
  rfl

/-- `get_component_for_write` in the exclusively-owned case: the existing
component has a single user and is returned as is. -/
theorem GeometrySet.gcfw_owned (g : GeometrySet) (s : Store)
    (t : GeometryComponentType) (id : CompId) (c : GeometryComponent)
    (hmap : g.components_ t = some id) (hc : s.comps id = some c)
    (hu : ¬ 1 < c.users_) :
    g.get_component_for_write s t = (g, s, id) := by
  unfold GeometrySet.get_component_for_write Store.get
  rw [hmap]
  simp only [hc]
  rw [if_neg hu]

theorem wfAt_elim (g : GeometrySet) (s : Store) (t : GeometryComponentType)
    (id : CompId) (hw : wfAt g s t = true) (hmap : g.components_ t = some id) :
    ∃ c, s.comps id = some c ∧ id < s.next ∧ 1 ≤ c.users_ ∧ c.type_ = t := by
  unfold wfAt at hw
  rw [hmap] at hw
  simp only at hw
  cases hc : s.comps id with
  | none => rw [hc] at hw; exact absurd hw (by simp)
  | some c =>
      rw [hc] at hw
      simp only [Bool.and_eq_true, decide_eq_true_eq, beq_iff_eq] at hw
      exact ⟨c, rfl, hw.1.1, hw.1.2, hw.2⟩

theorem Store.usersAt_of_comps (s : Store) (id : CompId)
    (c : GeometryComponent) (h : s.comps id = some c) :
    s.usersAt id = c.users_ := by
  unfold Store.usersAt
  rw [h]

/-- C1: copying a GeometrySet and then mutating — through the copy's
`get_component_for_write` — the payload of the component handed out never
changes any attribute value observable through the original's
`get_component_for_read`: the original's components are left untouched. -/
theorem copy_then_write_leaves_original_unchanged (g : GeometrySet) (s : Store)
    (t t' : GeometryComponentType)
    (f : List (String × Attr) → List (String × Attr)) (hwf : WF g s) :
    g.observe_attrs (copy_write_mutate g s t f) t' = g.observe_attrs s t' := by
  rw [GeometrySet.observe_attrs_eq, GeometrySet.observe_attrs_eq]
  cases hmap' : g.components_ t' with
  | none => rfl
  | some oid =>
    show (copy_write_mutate g s t f).attrsAt oid = s.attrsAt oid
    obtain ⟨c', hc', holt, hcu', hct'⟩ := wfAt_elim g s t' oid (hwf t') hmap'
    have hnext1 : ((g.copyset s).2).next = s.next := g.next_copyset s
    have hne : oid ≠ ((g.copyset s).2).next := by
      rw [hnext1]; exact Nat.ne_of_lt holt
    unfold copy_write_mutate
    cases hmap : g.components_ t with
    | none =>
      have hmapc : (g.copyset s).1.components_ t = none := by
        rw [GeometrySet.copyset_fst]; exact hmap
      rw [GeometrySet.gcfw_none _ _ _ hmapc]
      rw [Store.attrsAt_modify_ne _ _ _ _ hne]
      rw [Store.attrsAt_alloc_ne _ _ _ hne]
      exact g.attrsAt_copyset s oid
    | some wid0 =>
      obtain ⟨cw, hcw, _, hcwu, _⟩ := wfAt_elim g s t wid0 (hwf t) hmap
      have husers1 : 1 ≤ s.usersAt wid0 := by
        rw [s.usersAt_of_comps wid0 cw hcw]; exact hcwu
      have husers2 : 2 ≤ ((g.copyset s).2).usersAt wid0 :=
        g.usersAt_copyset_ge_two s t wid0 hmap husers1
      obtain ⟨c1, hc1, hu1⟩ :=
        Store.exists_comp_of_usersAt_ge_two _ _ husers2
      have hmapc : (g.copyset s).1.components_ t = some wid0 := by
        rw [GeometrySet.copyset_fst]; exact hmap
      rw [GeometrySet.gcfw_shared _ _ _ wid0 c1 hmapc hc1 (by omega)]
      rw [Store.attrsAt_modify_ne _ _ _ _ hne]
      have hne2 : oid ≠ (((g.copyset s).2).set wid0
          { c1 with users_ := c1.users_ - 1 }).next := by
        rw [Store.next_set]; exact hne
      rw [Store.attrsAt_alloc_ne _ _ _ hne2]
      rw [Store.attrsAt_set_users _ wid0 c1 _ hc1 oid]
      exact g.attrsAt_copyset s oid

/-- Witness for C1: a concrete one-mesh geometry set; copying it, taking the
mesh component for write on the copy and erasing all its attribute columns
leaves the attribute values readable from the original unchanged. -/
theorem copy_then_write_leaves_original_unchanged_witness :
    WF
      ⟨fun u => if u = GeometryComponentType.Mesh then some 0 else none⟩
      { next := 1,
        comps := fun j =>
          if j = 0 then
            some { users_ := 1, type_ := GeometryComponentType.Mesh,
                   attrs := [("position",
                     { domain := AttributeDomain.Point,
                       dataType := CustomDataType.CDFloat3, data := [3, 4] })],
                   domain_sizes := fun _ => 2 }
          else none } ∧
    GeometrySet.observe_attrs
      ⟨fun u => if u = GeometryComponentType.Mesh then some 0 else none⟩
      (copy_write_mutate
        ⟨fun u => if u = GeometryComponentType.Mesh then some 0 else none⟩
        { next := 1,
          comps := fun j =>
            if j = 0 then
              some { users_ := 1, type_ := GeometryComponentType.Mesh,
                     attrs := [("position",
                       { domain := AttributeDomain.Point,
                         dataType := CustomDataType.CDFloat3, data := [3, 4] })],
                     domain_sizes := fun _ => 2 }
            else none }
        GeometryComponentType.Mesh (fun _ => []))
      GeometryComponentType.Mesh =
    GeometrySet.observe_attrs
      ⟨fun u => if u = GeometryComponentType.Mesh then some 0 else none⟩
      { next := 1,
        comps := fun j =>
          if j = 0 then
            some { users_ := 1, type_ := GeometryComponentType.Mesh,
                   attrs := [("position",
                     { domain := AttributeDomain.Point,
                       dataType := CustomDataType.CDFloat3, data := [3, 4] })],
                   domain_sizes := fun _ => 2 }
          else none }
      GeometryComponentType.Mesh :=
  ⟨by decide,
   copy_then_write_leaves_original_unchanged _ _ _ _ _ (by decide)⟩

/-- C2: `get_component_for_write(kind)` always hands back an exclusively
owned, mutable component (reference count 1) and maps it under `kind`: when
no component of the kind exists a fresh empty owned one is created, and when
the existing component is shared (reference count above 1) it is replaced by
a fresh `copy()` at a new identity before being returned. -/
theorem get_component_for_write_exclusive (g : GeometrySet) (s : Store)
    (t : GeometryComponentType) (hwf : WF g s) :
    ((g.get_component_for_write s t).2.1).usersAt
        (g.get_component_for_write s t).2.2 = 1 ∧
    ((g.get_component_for_write s t).2.1).mutableAt
        (g.get_component_for_write s t).2.2 = true ∧
    (g.get_component_for_write s t).1.components_ t =
        some (g.get_component_for_write s t).2.2 ∧
    (g.components_ t = none →
      ((g.get_component_for_write s t).2.1).comps
          (g.get_component_for_write s t).2.2 =
        some (GeometryComponent.create t)) ∧
    (∀ id c, g.components_ t = some id → s.comps id = some c →
      1 < c.users_ →
      ((g.get_component_for_write s t).2.1).comps
          (g.get_component_for_write s t).2.2 = some c.copy ∧
      (g.get_component_for_write s t).2.2 ≠ id) := by
  cases hmap : g.components_ t with
  | none =>
    rw [GeometrySet.gcfw_none g s t hmap]
    refine ⟨?_, ?_, ?_, ?_, ?_⟩
    · simp [Store.alloc, Store.usersAt, GeometryComponent.create]
    · simp [Store.alloc, Store.mutableAt, GeometryComponent.create,
        GeometryComponent.is_mutable]
    · simp [GeometrySet.set_entry]
    · intro _
      simp [Store.alloc]
    · intro id c h1 _ _
      simp at h1
  | some id0 =>
    obtain ⟨c0, hc0, hlt, hcu, _⟩ := wfAt_elim g s t id0 (hwf t) hmap
    by_cases hu : 1 < c0.users_
    · rw [GeometrySet.gcfw_shared g s t id0 c0 hmap hc0 hu]
      refine ⟨?_, ?_, ?_, ?_, ?_⟩
      · simp [Store.alloc, Store.set, Store.usersAt, GeometryComponent.copy]
      · simp [Store.alloc, Store.set, Store.mutableAt, GeometryComponent.copy,
          GeometryComponent.is_mutable]
      · simp [GeometrySet.set_entry]
      · intro h1
        simp at h1
      · intro id c h1 h2 _
        injection h1 with h1
        subst h1
        rw [hc0] at h2
        injection h2 with h2
        subst h2
        constructor
        · simp [Store.alloc, Store.set]
        · exact Nat.ne_of_gt hlt
    · rw [GeometrySet.gcfw_owned g s t id0 c0 hmap hc0 hu]
      refine ⟨?_, ?_, ?_, ?_, ?_⟩
      · rw [s.usersAt_of_comps id0 c0 hc0]; omega
      · unfold Store.mutableAt
        rw [hc0]
        simp only [GeometryComponent.is_mutable]
        simp
        omega
      · exact hmap
      · intro h1
        simp at h1
      · intro id c h1 h2 h3
        injection h1 with h1
        subst h1
        rw [hc0] at h2
        injection h2 with h2
        subst h2
        exact absurd h3 hu

/-- Witness for C2: the empty geometry set against an empty store (the
spec's `has_mesh` scenario: requesting the mesh component for write creates
an empty owned, mutable mesh component and maps it). -/
theorem get_component_for_write_exclusive_witness :
    WF GeometrySet.empty { next := 0, comps := fun _ => none } ∧
    (((GeometrySet.empty.get_component_for_write
          { next := 0, comps := fun _ => none }
          GeometryComponentType.Mesh).2.1).usersAt
        (GeometrySet.empty.get_component_for_write
          { next := 0, comps := fun _ => none }
          GeometryComponentType.Mesh).2.2 = 1 ∧
    ((GeometrySet.empty.get_component_for_write
          { next := 0, comps := fun _ => none }
          GeometryComponentType.Mesh).2.1).mutableAt
        (GeometrySet.empty.get_component_for_write
          { next := 0, comps := fun _ => none }
          GeometryComponentType.Mesh).2.2 = true ∧
    (GeometrySet.empty.get_component_for_write
          { next := 0, comps := fun _ => none }
          GeometryComponentType.Mesh).1.components_ GeometryComponentType.Mesh =
        some (GeometrySet.empty.get_component_for_write
          { next := 0, comps := fun _ => none }
          GeometryComponentType.Mesh).2.2 ∧
    (GeometrySet.empty.components_ GeometryComponentType.Mesh = none →
      ((GeometrySet.empty.get_component_for_write
          { next := 0, comps := fun _ => none }
          GeometryComponentType.Mesh).2.1).comps
          (GeometrySet.empty.get_component_for_write
            { next := 0, comps := fun _ => none }
            GeometryComponentType.Mesh).2.2 =
        some (GeometryComponent.create GeometryComponentType.Mesh)) ∧
    (∀ id c, GeometrySet.empty.components_ GeometryComponentType.Mesh = some id →
      Store.comps { next := 0, comps := fun _ => none } id = some c →
      1 < c.users_ →
      ((GeometrySet.empty.get_component_for_write
          { next := 0, comps := fun _ => none }
          GeometryComponentType.Mesh).2.1).comps
          (GeometrySet.empty.get_component_for_write
            { next := 0, comps := fun _ => none }
            GeometryComponentType.Mesh).2.2 = some c.copy ∧
      (GeometrySet.empty.get_component_for_write
          { next := 0, comps := fun _ => none }
          GeometryComponentType.Mesh).2.2 ≠ id)) :=
  ⟨by decide,
   get_component_for_write_exclusive GeometrySet.empty
     { next := 0, comps := fun _ => none } GeometryComponentType.Mesh
     (by decide)⟩

theorem GeometrySet.add_comps_at (g : GeometrySet) (s : Store) (id : CompId)
    (c : GeometryComponent) (hc : s.comps id = some c)
    (hne : g.components_ c.type_ ≠ some id) :
    ((g.add s id).2).comps id = some { c with users_ := c.users_ + 1 } := by
  unfold GeometrySet.add Store.get
  simp only [hc]
  have hs1 : (s.user_add_at id).comps id =
      some { c with users_ := c.users_ + 1 } := by
    unfold Store.user_add_at
    simp only [hc]
    unfold Store.set GeometryComponent.user_add
    simp
  cases hgc : g.components_ c.type_ with
  | none => exact hs1
  | some old =>
      have hold : id ≠ old := fun h => hne (by rw [hgc, h])
      rw [Store.comps_user_remove_at_ne _ old id hold]
      exact hs1

/-- C3: `is_mutable()` holds exactly when the reference count is 1, and as
soon as a second geometry set gains a shared reference to the component
through `add()`, the component behind that pointer stops being mutable (its
reference count is now 2). -/
theorem is_mutable_iff_refcount_one (c : GeometryComponent) :
    (c.is_mutable = true ↔ c.users_ = 1) ∧
    (∀ (g : GeometrySet) (s : Store) (id : CompId),
      s.comps id = some c → c.users_ = 1 →
      g.components_ c.type_ ≠ some id →
      ((g.add s id).2).usersAt id = 2 ∧
      ((g.add s id).2).mutableAt id = false) := by
  constructor
  · simp [GeometryComponent.is_mutable]
  · intro g s id hc hu hne
    have hcomp := GeometrySet.add_comps_at g s id c hc hne
    constructor
    · unfold Store.usersAt
      rw [hcomp]
      simp [hu]
    · unfold Store.mutableAt
      rw [hcomp]
      simp [GeometryComponent.is_mutable, hu]

/-- Witness for C3: a singly-referenced mesh component is mutable; adding it
to a second (empty) geometry set makes `is_mutable()` on it false. -/
theorem is_mutable_iff_refcount_one_witness :
    (Store.comps
        { next := 1,
          comps := fun j =>
            if j = 0 then
              some { users_ := 1, type_ := GeometryComponentType.Mesh,
                     attrs := [], domain_sizes := fun _ => 0 }
            else none } 0 =
      some { users_ := 1, type_ := GeometryComponentType.Mesh,
             attrs := [], domain_sizes := fun _ => 0 }) ∧
    ({ users_ := 1, type_ := GeometryComponentType.Mesh,
       attrs := [], domain_sizes := fun _ => 0 : GeometryComponent }.users_ = 1) ∧
    (GeometrySet.empty.components_
        ({ users_ := 1, type_ := GeometryComponentType.Mesh,
           attrs := [], domain_sizes := fun _ => 0 : GeometryComponent }).type_ ≠
      some 0) ∧
    (((GeometrySet.empty.add
        { next := 1,
          comps := fun j =>
            if j = 0 then
              some { users_ := 1, type_ := GeometryComponentType.Mesh,
                     attrs := [], domain_sizes := fun _ => 0 }
            else none } 0).2).usersAt 0 = 2 ∧
    ((GeometrySet.empty.add
        { next := 1,
          comps := fun j =>
            if j = 0 then
              some { users_ := 1, type_ := GeometryComponentType.Mesh,
                     attrs := [], domain_sizes := fun _ => 0 }
            else none } 0).2).mutableAt 0 = false) :=
  ⟨rfl, rfl, by simp [GeometrySet.empty],
   (is_mutable_iff_refcount_one
      { users_ := 1, type_ := GeometryComponentType.Mesh,
        attrs := [], domain_sizes := fun _ => 0 }).2
     GeometrySet.empty
     { next := 1,
       comps := fun j =>
         if j = 0 then
           some { users_ := 1, type_ := GeometryComponentType.Mesh,
                  attrs := [], domain_sizes := fun _ => 0 }
         else none } 0
     rfl rfl (by simp [GeometrySet.empty])⟩

/-- C4: `attribute_get_for_read(name, domain, type, default_value)` never
returns null: when the named attribute exists its data is returned
interpolated to the requested domain and converted to the requested type,
and otherwise the result is a constant view with one entry per element of
the domain, each equal to `default_value`. -/
theorem attribute_get_for_read_never_null (c : GeometryComponent)
    (attribute_name : String) (domain : AttributeDomain)
    (data_type : CustomDataType) (default_value : AttrValue)
    (hdom : c.attribute_domain_supported domain = true) :
    (c.attribute_get_for_read attribute_name domain data_type
        default_value).isSome = true ∧
    (c.attribute_exists attribute_name = false →
      c.attribute_get_for_read attribute_name domain data_type default_value =
        some (c.attribute_get_constant_for_read domain data_type default_value) ∧
      (∀ x ∈ (c.attribute_get_constant_for_read domain data_type
          default_value).data, x = default_value) ∧
      (c.attribute_get_constant_for_read domain data_type
          default_value).data.length = c.attribute_domain_size domain) ∧
    (∀ a, lookupAttr c.attrs attribute_name = some a →
      c.attribute_get_for_read attribute_name domain data_type default_value =
        some (convert_attr_type (c.attribute_try_adapt_domain a domain)
          data_type)) := by
  clear hdom
  unfold GeometryComponent.attribute_get_for_read
    GeometryComponent.attribute_try_get_for_read3
  cases hl : lookupAttr c.attrs attribute_name with
  | none =>
      simp only [Option.map_none']
      refine ⟨rfl, ?_, ?_⟩
      · intro _
        refine ⟨by trivial, ?_, ?_⟩
        · intro x hx
          exact List.eq_of_mem_replicate hx
        · exact List.length_replicate _ _
      · intro a ha
        simp at ha
  | some a0 =>
      simp only [Option.map_some']
      refine ⟨rfl, ?_, ?_⟩
      · intro hex
        unfold GeometryComponent.attribute_exists
          GeometryComponent.attribute_try_get_for_read at hex
        rw [hl] at hex
        simp at hex
      · intro a ha
        injection ha with ha
        subst ha
        rfl

/-- Witness for C4: a mesh component with one attribute column; reading a
missing name on the point domain yields the constant default view. -/
theorem attribute_get_for_read_never_null_witness :
    GeometryComponent.attribute_domain_supported
      { users_ := 1, type_ := GeometryComponentType.Mesh,
        attrs := [("position",
          { domain := AttributeDomain.Point,
            dataType := CustomDataType.CDFloat3, data := [5, 6] })],
        domain_sizes := fun _ => 2 } AttributeDomain.Point = true ∧
    ((GeometryComponent.attribute_get_for_read
        { users_ := 1, type_ := GeometryComponentType.Mesh,
          attrs := [("position",
            { domain := AttributeDomain.Point,
              dataType := CustomDataType.CDFloat3, data := [5, 6] })],
          domain_sizes := fun _ => 2 }
        "missing" AttributeDomain.Point CustomDataType.CDFloat 7).isSome = true ∧
    (GeometryComponent.attribute_exists
        { users_ := 1, type_ := GeometryComponentType.Mesh,
          attrs := [("position",
            { domain := AttributeDomain.Point,
              dataType := CustomDataType.CDFloat3, data := [5, 6] })],
          domain_sizes := fun _ => 2 } "missing" = false →
      GeometryComponent.attribute_get_for_read
        { users_ := 1, type_ := GeometryComponentType.Mesh,
          attrs := [("position",
            { domain := AttributeDomain.Point,
              dataType := CustomDataType.CDFloat3, data := [5, 6] })],
          domain_sizes := fun _ => 2 }
        "missing" AttributeDomain.Point CustomDataType.CDFloat 7 =
        some (GeometryComponent.attribute_get_constant_for_read
          { users_ := 1, type_ := GeometryComponentType.Mesh,
            attrs := [("position",
              { domain := AttributeDomain.Point,
                dataType := CustomDataType.CDFloat3, data := [5, 6] })],
            domain_sizes := fun _ => 2 }
          AttributeDomain.Point CustomDataType.CDFloat 7) ∧
      (∀ x ∈ (GeometryComponent.attribute_get_constant_for_read
          { users_ := 1, type_ := GeometryComponentType.Mesh,
            attrs := [("position",
              { domain := AttributeDomain.Point,
                dataType := CustomDataType.CDFloat3, data := [5, 6] })],
            domain_sizes := fun _ => 2 }
          AttributeDomain.Point CustomDataType.CDFloat 7).data, x = 7) ∧
      (GeometryComponent.attribute_get_constant_for_read
          { users_ := 1, type_ := GeometryComponentType.Mesh,
            attrs := [("position",
              { domain := AttributeDomain.Point,
                dataType := CustomDataType.CDFloat3, data := [5, 6] })],
            domain_sizes := fun _ => 2 }
          AttributeDomain.Point CustomDataType.CDFloat 7).data.length =
        GeometryComponent.attribute_domain_size
          { users_ := 1, type_ := GeometryComponentType.Mesh,
            attrs := [("position",
              { domain := AttributeDomain.Point,
                dataType := CustomDataType.CDFloat3, data := [5, 6] })],
            domain_sizes := fun _ => 2 } AttributeDomain.Point) ∧
    (∀ a, lookupAttr
        [("position",
          { domain := AttributeDomain.Point,
            dataType := CustomDataType.CDFloat3, data := [5, 6] })] "missing" =
        some a →
      GeometryComponent.attribute_get_for_read
        { users_ := 1, type_ := GeometryComponentType.Mesh,
          attrs := [("position",
            { domain := AttributeDomain.Point,
              dataType := CustomDataType.CDFloat3, data := [5, 6] })],
          domain_sizes := fun _ => 2 }
        "missing" AttributeDomain.Point CustomDataType.CDFloat 7 =
        some (convert_attr_type
          (GeometryComponent.attribute_try_adapt_domain
            { users_ := 1, type_ := GeometryComponentType.Mesh,
              attrs := [("position",
                { domain := AttributeDomain.Point,
                  dataType := CustomDataType.CDFloat3, data := [5, 6] })],
              domain_sizes := fun _ => 2 } a AttributeDomain.Point)
          CustomDataType.CDFloat))) :=
  ⟨rfl,
   attribute_get_for_read_never_null _ "missing" AttributeDomain.Point
     CustomDataType.CDFloat 7 rfl⟩

/-- C5: `attribute_try_get_for_write(name)` succeeds exactly when the
attribute exists and the component is mutable; it is null both on a shared
(read-only) component and on a missing attribute. -/
theorem attribute_try_get_for_write_iff (c : GeometryComponent)
    (attribute_name : String) :
    (c.attribute_try_get_for_write attribute_name).isSome =
      (c.attribute_exists attribute_name && c.is_mutable) := by
  unfold GeometryComponent.attribute_try_get_for_write
    GeometryComponent.attribute_exists
    GeometryComponent.attribute_try_get_for_read
  cases hm : c.is_mutable
  · simp
  · simp

theorem lookupAttr_filter_ne (l : List (String × Attr))
    (attribute_name : String) :
    lookupAttr (l.filter (fun p => p.1 != attribute_name)) attribute_name =
      none := by
  induction l with
  | nil => rfl
  | cons p rest ih =>
      by_cases h : p.1 = attribute_name
      · simp only [List.filter_cons, h, bne_self_eq_false, if_false,
          Bool.false_eq_true]
        exact ih
      · have hb : (p.1 != attribute_name) = true := by
          simp [bne, h]
        simp only [List.filter_cons, hb, if_true]
        unfold lookupAttr
        rw [if_neg h]
        exact ih

/-- C6: `attribute_try_delete(name)` on a builtin name fails and leaves the
component (attribute set and values) unchanged; on a just-created custom
attribute it succeeds and `attribute_exists(name)` is false afterwards. -/
theorem attribute_try_delete_builtin_vs_custom (c : GeometryComponent)
    (attribute_name : String) (domain : AttributeDomain)
    (data_type : CustomDataType) :
    (c.attribute_is_builtin attribute_name = true →
      c.attribute_try_delete attribute_name = (false, c)) ∧
    ((c.attribute_try_create attribute_name domain data_type).1 = true →
      ((c.attribute_try_create attribute_name domain
          data_type).2.attribute_try_delete attribute_name).1 = true ∧
      (((c.attribute_try_create attribute_name domain
          data_type).2.attribute_try_delete
          attribute_name).2).attribute_exists attribute_name = false) := by
  constructor
  · intro hb
    unfold GeometryComponent.attribute_try_delete
    rw [hb]
    simp
  · intro hcr
    unfold GeometryComponent.attribute_try_create at hcr ⊢
    split_ifs at hcr ⊢ with h1 h2 h3 h4
    constructor
    · unfold GeometryComponent.attribute_try_delete
      unfold GeometryComponent.attribute_is_builtin at h2 ⊢
      simp only [Bool.not_eq_true] at h2
      rw [h2]
      unfold lookupAttr
      simp
    · unfold GeometryComponent.attribute_try_delete
      unfold GeometryComponent.attribute_is_builtin at h2 ⊢
      simp only [Bool.not_eq_true] at h2
      rw [h2]
      unfold lookupAttr
      simp only [if_pos rfl, Option.isSome_some, Bool.false_eq_true,
        if_false, if_true]
      unfold GeometryComponent.attribute_exists
        GeometryComponent.attribute_try_get_for_read
      simp only []
      rw [show (((attribute_name,
          { domain := domain, dataType := data_type,
            data := List.replicate (c.attribute_domain_size domain) 0 }) ::
          c.attrs).filter (fun p => p.1 != attribute_name)) =
          (c.attrs.filter (fun p => p.1 != attribute_name)) by
        simp [List.filter_cons]]
      rw [lookupAttr_filter_ne]
      rfl

/-- A small sample mesh component used by the concrete witnesses. -/
def sampleMeshComponent : GeometryComponent :=
  { users_ := 1, type_ := GeometryComponentType.Mesh,
    attrs := [("position",
      { domain := AttributeDomain.Point,
        dataType := CustomDataType.CDFloat3, data := [5, 6] })],
    domain_sizes := fun _ => 2 }

/-- Witness for C6: on the sample mesh component, deleting the builtin
`position` fails and changes nothing, while a just-created custom `extra`
attribute deletes successfully and no longer exists. -/
theorem attribute_try_delete_builtin_vs_custom_witness :
    (GeometryComponent.attribute_is_builtin sampleMeshComponent "position" =
        true ∧
     sampleMeshComponent.attribute_try_delete "position" =
        (false, sampleMeshComponent)) ∧
    ((sampleMeshComponent.attribute_try_create "extra" AttributeDomain.Point
        CustomDataType.CDFloat).1 = true ∧
     ((sampleMeshComponent.attribute_try_create "extra" AttributeDomain.Point
        CustomDataType.CDFloat).2.attribute_try_delete "extra").1 = true ∧
     (((sampleMeshComponent.attribute_try_create "extra" AttributeDomain.Point
        CustomDataType.CDFloat).2.attribute_try_delete
        "extra").2).attribute_exists "extra" = false) :=
  ⟨⟨rfl, (attribute_try_delete_builtin_vs_custom sampleMeshComponent "position"
      AttributeDomain.Point CustomDataType.CDFloat).1 rfl⟩,
   ⟨rfl, (attribute_try_delete_builtin_vs_custom sampleMeshComponent "extra"
      AttributeDomain.Point CustomDataType.CDFloat).2 rfl⟩⟩

/-- C7: the five parallel arrays of an `InstancesComponent` stay
length-synchronized: `add_instance` appends exactly one entry to each array,
preserving insertion order, and `instances_amount()` grows by one. -/
theorem add_instance_parallel_arrays (ic : InstancesComponent)
    (data : InstancedData) (position rotation scale : float3) (id : Int)
    (h : ic.arrays_synced) :
    (ic.add_instance data position rotation scale id).arrays_synced ∧
    (ic.add_instance data position rotation scale id).positions_ =
      ic.positions_ ++ [position] ∧
    (ic.add_instance data position rotation scale id).rotations_ =
      ic.rotations_ ++ [rotation] ∧
    (ic.add_instance data position rotation scale id).scales_ =
      ic.scales_ ++ [scale] ∧
    (ic.add_instance data position rotation scale id).ids_ =
      ic.ids_ ++ [id] ∧
    (ic.add_instance data position rotation scale id).instanced_data_ =
      ic.instanced_data_ ++ [data] ∧
    (ic.add_instance data position rotation scale id).instances_amount =
      ic.instances_amount + 1 := by
  obtain ⟨h1, h2, h3, h4⟩ := h
  refine ⟨⟨?_, ?_, ?_, ?_⟩, rfl, rfl, rfl, rfl, rfl, ?_⟩ <;>
    simp [InstancesComponent.add_instance, InstancesComponent.arrays_synced,
      InstancesComponent.instances_amount, h1, h2, h3, h4]

/-- Witness for C7: the spec scenario — three `add_instance` calls with
distinct positions and default rotation/scale starting from the empty
component; the arrays stay synchronized, `instances_amount()` is 3 and
`positions()` lists the three positions in insertion order. -/
theorem add_instance_parallel_arrays_witness :
    ((InstancesComponent.emptyInstances.add_instance_object 1 (1, 0, 0)).add_instance_object
        2 (2, 0, 0)).arrays_synced ∧
    ((((InstancesComponent.emptyInstances.add_instance_object 1
        (1, 0, 0)).add_instance_object 2 (2, 0, 0)).add_instance
        (InstancedData.ofObject 3) (3, 0, 0) (0, 0, 0) (1, 1, 1)
        (-1)).arrays_synced ∧
    (((InstancesComponent.emptyInstances.add_instance_object 1
        (1, 0, 0)).add_instance_object 2 (2, 0, 0)).add_instance
        (InstancedData.ofObject 3) (3, 0, 0) (0, 0, 0) (1, 1, 1)
        (-1)).positions_ = [(1, 0, 0), (2, 0, 0), (3, 0, 0)] ∧
    (((InstancesComponent.emptyInstances.add_instance_object 1
        (1, 0, 0)).add_instance_object 2 (2, 0, 0)).add_instance
        (InstancedData.ofObject 3) (3, 0, 0) (0, 0, 0) (1, 1, 1)
        (-1)).instances_amount = 3) :=
  ⟨by decide,
   (add_instance_parallel_arrays
      ((InstancesComponent.emptyInstances.add_instance_object 1
        (1, 0, 0)).add_instance_object 2 (2, 0, 0))
      (InstancedData.ofObject 3) (3, 0, 0) (0, 0, 0) (1, 1, 1) (-1)
      (by decide)).1,
   by decide, by decide⟩
